import Mathlib

/-!
# Shallow embedding of src/src/core/StelNavigator.cpp

Stellarium's reference-frame and time-keeping core.  C++ doubles are
modelled as rational numbers; all operations of the source file are pure
arithmetic on them, so this is exact.  Collaborators that live outside
this file (the object-selection manager, the solar-system ephemeris, the
Qt settings store) are modelled as explicit state or parameters, and the
calls the navigator makes to them are recorded as explicit outputs so
that the order and the arguments of those calls stay observable.

The fixed constant matrix matJ2000ToVsop87 is built by the source from
sines and cosines of the J2000 obliquity; its numeric entries are
transcendental and no verified claim depends on them, so the constant is
carried as an explicit parameter (bundled in FrameConsts) while the
by-construction relation matVsop87ToJ2000 = transpose(matJ2000ToVsop87)
from line 41 of the source is kept definitionally.

The view matrix updateModelViewMat normalizes vectors with a square
root, which has no exact rational counterpart; it writes only the field
matAltAzModelView and reads, never writes, the three vision-direction
fields, so it is omitted from the state.  No claim below is about the
view matrix itself.
-/

namespace StelNavigatorSpec

abbrev Vec3 := Fin 3 → ℚ
abbrev Mat4 := Matrix (Fin 4) (Fin 4) ℚ

/-- Modelled from the spec: the vector/matrix primitives are a leaf math
library (VecMath, not under src/).  Homogeneous coordinates of a
3-vector, with w component 1. -/
def homog (v : Vec3) : Fin 4 → ℚ := ![v 0, v 1, v 2, 1]

/-- Modelled from the spec: the product of a 4x4 homogeneous matrix with a
3-vector (Mat4d operator* Vec3d), i.e. the affine action including the
translation column. -/
def mul4v (M : Mat4) (v : Vec3) : Vec3 :=
  fun i => M.mulVec (homog v) i.castSucc

/-- Modelled from the spec: Mat4d::translation, the homogeneous matrix
translating by a 3-vector. -/
def translation (v : Vec3) : Mat4 :=
  Matrix.of ![![1, 0, 0, v 0], ![0, 1, 0, v 1], ![0, 0, 1, v 2], ![0, 0, 0, 1]]

/-- Modelled from the spec: JD_SECOND (defined in StelNavigator.hpp, not
under src/): one real-time second expressed in Julian-Day units, i.e.
1 solar day per 86400 real seconds. -/
def JD_SECOND : ℚ := 1 / 86400

/-- Upper bound of the supported Julian-Day range (source line 316). -/
def JDayMax : ℚ := 38245309.499988

/-- Lower bound of the supported Julian-Day range (source line 317). -/
def JDayMin : ℚ := -34803211.500012

/-- The Julian-Day clamp of updateTime, source lines 315-317: two
sequential conditional assignments. -/
def clampJD (jd : ℚ) : ℚ :=
  let jd1 := if jd > JDayMax then JDayMax else jd
  if jd1 < JDayMin then JDayMin else jd1

/-- The fixed astronomical constant matrix owned by the navigator
(source line 40).  Its entries are transcendental reals, so it is kept
abstract; the companion matVsop87ToJ2000 is its transpose by
construction (source line 41). -/
structure FrameConsts where
  matJ2000ToVsop87 : Mat4

/-- Source line 41: matVsop87ToJ2000 is defined as the transpose of
matJ2000ToVsop87, by construction. -/
def FrameConsts.matVsop87ToJ2000 (c : FrameConsts) : Mat4 :=
  c.matJ2000ToVsop87.transpose

/-- The data the current observer supplies to the matrix derivation
(StelObserver accessors getRotAltAzToEquatorial, getRotEquatorialToVsop87,
getCenterVsop87Pos, getDistanceFromCenter used at source lines 343-358). -/
structure StelObserverFrame where
  getRotAltAzToEquatorial : ℚ → Mat4
  getRotEquatorialToVsop87 : Mat4
  getCenterVsop87Pos : Vec3
  getDistanceFromCenter : ℚ

/-- The eight derived transform matrices written by
updateTransformMatrices (source lines 341-360). -/
structure TransformMats where
  matAltAzToEquinoxEqu : Mat4
  matEquinoxEquToAltAz : Mat4
  matEquinoxEquToJ2000 : Mat4
  matJ2000ToEquinoxEqu : Mat4
  matJ2000ToAltAz : Mat4
  matHeliocentricEclipticToEquinoxEqu : Mat4
  matAltAzToHeliocentricEcliptic : Mat4
  matHeliocentricEclipticToAltAz : Mat4

/-- StelNavigator::updateTransformMatrices, source lines 341-360,
verbatim.  The source writes the eight matrix fields reading only the
observer accessors, the current Julian Day and the fixed constants —
never a previously stored matrix — which the signature makes explicit. -/
def updateTransformMatrices (c : FrameConsts) (position : StelObserverFrame)
    (JDay : ℚ) : TransformMats :=
  let matAltAzToEquinoxEqu := position.getRotAltAzToEquatorial JDay
  let matEquinoxEquToAltAz := matAltAzToEquinoxEqu.transpose
  let matEquinoxEquToJ2000 := c.matVsop87ToJ2000 * position.getRotEquatorialToVsop87
  let matJ2000ToEquinoxEqu := matEquinoxEquToJ2000.transpose
  let matJ2000ToAltAz := matEquinoxEquToAltAz * matJ2000ToEquinoxEqu
  let matHeliocentricEclipticToEquinoxEqu :=
    matJ2000ToEquinoxEqu * c.matVsop87ToJ2000 * translation (-position.getCenterVsop87Pos)
  let tmp := c.matJ2000ToVsop87 * matEquinoxEquToJ2000 * matAltAzToEquinoxEqu
  let matAltAzToHeliocentricEcliptic :=
    translation position.getCenterVsop87Pos * tmp *
      translation ![0, 0, position.getDistanceFromCenter]
  let matHeliocentricEclipticToAltAz :=
    translation ![0, 0, -position.getDistanceFromCenter] * tmp.transpose *
      translation (-position.getCenterVsop87Pos)
  ⟨matAltAzToEquinoxEqu, matEquinoxEquToAltAz, matEquinoxEquToJ2000,
    matJ2000ToEquinoxEqu, matJ2000ToAltAz, matHeliocentricEclipticToEquinoxEqu,
    matAltAzToHeliocentricEcliptic, matHeliocentricEclipticToAltAz⟩

/-- The section 4.4 algorithm of the spec, written exactly as the spec
states it (its own naming and formula order), for comparison with the
source-derived updateTransformMatrices. -/
def specSection44Matrices (c : FrameConsts) (observer : StelObserverFrame)
    (jd : ℚ) : TransformMats :=
  let altAzToEquOfDate := observer.getRotAltAzToEquatorial jd
  let equOfDateToAltAz := altAzToEquOfDate.transpose
  let equOfDateToJ2000 := c.matJ2000ToVsop87.transpose * observer.getRotEquatorialToVsop87
  let j2000ToEquOfDate := equOfDateToJ2000.transpose
  let j2000ToAltAz := equOfDateToAltAz * j2000ToEquOfDate
  let helioEclipticToEquOfDate :=
    j2000ToEquOfDate * c.matVsop87ToJ2000 * translation (-observer.getCenterVsop87Pos)
  let tmp := c.matJ2000ToVsop87 * equOfDateToJ2000 * altAzToEquOfDate
  let altAzToHelioEcliptic :=
    translation observer.getCenterVsop87Pos * tmp *
      translation ![0, 0, observer.getDistanceFromCenter]
  let helioEclipticToAltAz :=
    translation ![0, 0, -observer.getDistanceFromCenter] * tmp.transpose *
      translation (-observer.getCenterVsop87Pos)
  ⟨altAzToEquOfDate, equOfDateToAltAz, equOfDateToJ2000, j2000ToEquOfDate,
    j2000ToAltAz, helioEclipticToEquOfDate, altAzToHelioEcliptic,
    helioEclipticToAltAz⟩

/-- StelLocation record (StelLocation.hpp is not under src/; the fields
used by this file are the planet/name/state identifiers and the numeric
coordinates). -/
structure StelLocation where
  planetName : String
  name : String
  state : String
  longitude : ℚ
  latitude : ℚ
  altitude : ℚ
deriving DecidableEq

/-- The planet data the navigator reads through the ephemeris
collaborator: English name, sidereal day length in days, heliocentric
ecliptic position. -/
structure Planet where
  getEnglishName : String
  getSiderealDay : ℚ
  getHeliocentricEclipticPos : Vec3

/-- Modelled from the spec: the observer state variant (StelObserver /
SpaceShipObserver, whose implementation file is not under src/): either a
static observer at a fixed location, or a transitioning observer between
two locations with a duration and the simulated seconds elapsed so far. -/
inductive StelObserver where
  | static (loc : StelLocation)
  | spaceShip (fromLoc toLoc : StelLocation) (duration elapsed : ℚ)
deriving DecidableEq

/-- Linear interpolation used for the numeric location fields. -/
def lerpQ (a b t : ℚ) : ℚ := (1 - t) * a + t * b

/-- Modelled from the spec: getCurrentLocation — the fixed location for a
static observer; for a transitioning observer, linear interpolation of the
endpoints by elapsed/duration clamped to the unit interval, with identifier
fields carried over by assignment, the destination winning past the
midpoint (the exact identifier blending policy is declared an external
detail by the spec). -/
def StelObserver.getCurrentLocation : StelObserver → StelLocation
  | .static loc => loc
  | .spaceShip s e dur el =>
      let t := if dur ≤ 0 then 1 else max 0 (min 1 (el / dur))
      { planetName := if 1/2 ≤ t then e.planetName else s.planetName
        name := if 1/2 ≤ t then e.name else s.name
        state := if 1/2 ≤ t then e.state else s.state
        longitude := lerpQ s.longitude e.longitude t
        latitude := lerpQ s.latitude e.latitude t
        altitude := lerpQ s.altitude e.altitude t }

/-- Modelled from the spec: isObserverLifeOver — false for a static
observer, true for a transitioning one once elapsed reaches the
duration. -/
def StelObserver.isObserverLifeOver : StelObserver → Bool
  | .static _ => false
  | .spaceShip _ _ dur el => decide (dur ≤ el)

/-- Modelled from the spec: getNextObserver — a fresh static observer
anchored at the transition's destination (only meaningful once the
lifetime is over; a static observer yields itself). -/
def StelObserver.getNextObserver : StelObserver → StelObserver
  | .static loc => .static loc
  | .spaceShip _ e _ _ => .static e

/-- Modelled from the spec: the per-variant update hook — a no-op for a
static observer, accumulation of elapsed simulated seconds for a
transitioning one. -/
def StelObserver.update : StelObserver → ℚ → StelObserver
  | .static loc, _ => .static loc
  | .spaceShip s e dur el, dt => .spaceShip s e dur (el + dt)

/-- getHomePlanet: the ephemeris body named by the current (possibly
interpolated) location; the planet registry is the parameter pr. -/
def StelObserver.getHomePlanet (o : StelObserver) (pr : String → Planet) : Planet :=
  pr o.getCurrentLocation.planetName

/-- State of the object-selection collaborator (StelObjectMgr) as far as
updateTime observes it: whether something is selected and the identity
(English name) of the selected body. -/
structure SelState where
  wasSelected : Bool
  selectedName : String
deriving DecidableEq

/-- StelObjectMgr::unSelect: clears the selection. -/
def SelState.unSelect (_ : SelState) : SelState := ⟨false, ""⟩

/-- Notifications the navigator emits to external collaborators. -/
inductive NavEvent where
  | locationChanged (target : StelLocation)
deriving DecidableEq

/-- The navigator state: simulated clock (timeSpeed, JDay), the owned
observer, the derived transform matrices and the three redundant
vision-direction representations (source fields; the view matrix is
omitted, see the file header). -/
structure StelNavigator where
  timeSpeed : ℚ
  JDay : ℚ
  position : StelObserver
  mats : TransformMats
  altAzVisionDirection : Vec3
  earthEquVisionDirection : Vec3
  J2000EquVisionDirection : Vec3

/-- Header inline helper altAzToEquinoxEqu: multiply by
matAltAzToEquinoxEqu. -/
def StelNavigator.altAzToEquinoxEqu (nav : StelNavigator) (v : Vec3) : Vec3 :=
  mul4v nav.mats.matAltAzToEquinoxEqu v

/-- Header inline helper equinoxEquToAltAz: multiply by
matEquinoxEquToAltAz. -/
def StelNavigator.equinoxEquToAltAz (nav : StelNavigator) (v : Vec3) : Vec3 :=
  mul4v nav.mats.matEquinoxEquToAltAz v

/-- StelNavigator::setAltAzVisionDirection, source lines 283-289 (the
view-matrix rebuild touches only the omitted view-matrix field). -/
def StelNavigator.setAltAzVisionDirection (nav : StelNavigator) (pos : Vec3) :
    StelNavigator :=
  let altAzVisionDirection := pos
  let earthEquVisionDirection := nav.altAzToEquinoxEqu altAzVisionDirection
  let J2000EquVisionDirection := mul4v nav.mats.matEquinoxEquToJ2000 earthEquVisionDirection
  { nav with
    altAzVisionDirection := altAzVisionDirection
    earthEquVisionDirection := earthEquVisionDirection
    J2000EquVisionDirection := J2000EquVisionDirection }

/-- StelNavigator::setEquinoxEquVisionDirection, source lines 292-298. -/
def StelNavigator.setEquinoxEquVisionDirection (nav : StelNavigator) (pos : Vec3) :
    StelNavigator :=
  let earthEquVisionDirection := pos
  let J2000EquVisionDirection := mul4v nav.mats.matEquinoxEquToJ2000 earthEquVisionDirection
  let altAzVisionDirection := nav.equinoxEquToAltAz earthEquVisionDirection
  { nav with
    altAzVisionDirection := altAzVisionDirection
    earthEquVisionDirection := earthEquVisionDirection
    J2000EquVisionDirection := J2000EquVisionDirection }

/-- StelNavigator::setJ2000EquVisionDirection, source lines 301-307. -/
def StelNavigator.setJ2000EquVisionDirection (nav : StelNavigator) (pos : Vec3) :
    StelNavigator :=
  let J2000EquVisionDirection := pos
  let earthEquVisionDirection := mul4v nav.mats.matJ2000ToEquinoxEqu J2000EquVisionDirection
  let altAzVisionDirection := nav.equinoxEquToAltAz earthEquVisionDirection
  { nav with
    altAzVisionDirection := altAzVisionDirection
    earthEquVisionDirection := earthEquVisionDirection
    J2000EquVisionDirection := J2000EquVisionDirection }

/-- Modelled from the spec: setJDay (accessor in StelNavigator.hpp, not
under src/): sets the absolute Julian Day, clamped to the supported
range. -/
def StelNavigator.setJDay (nav : StelNavigator) (jd : ℚ) : StelNavigator :=
  { nav with JDay := clampJD jd }

/-- StelNavigator::addSolarDays, source lines 161-164. -/
def StelNavigator.addSolarDays (nav : StelNavigator) (d : ℚ) : StelNavigator :=
  nav.setJDay (nav.JDay + d)

/-- StelNavigator::addSiderealDays, source lines 166-172: scale by the
home body's sidereal day length unless the home body is the
solar-system-observer pseudo-body. -/
def StelNavigator.addSiderealDays (nav : StelNavigator) (pr : String → Planet)
    (d : ℚ) : StelNavigator :=
  let home := nav.position.getHomePlanet pr
  let d' := if home.getEnglishName ≠ "Solar System StelObserver"
    then d * home.getSiderealDay else d
  nav.setJDay (nav.JDay + d')

/-- StelNavigator::increaseTimeSpeed, source lines 241-249. -/
def StelNavigator.increaseTimeSpeed (nav : StelNavigator) : StelNavigator :=
  let s := nav.timeSpeed
  let s := if s ≥ JD_SECOND then s * 10
    else if s < -JD_SECOND then s / 10
    else if s ≥ 0 ∧ s < JD_SECOND then JD_SECOND
    else if s ≥ -JD_SECOND ∧ s < 0 then 0
    else s
  { nav with timeSpeed := s }

/-- StelNavigator::decreaseTimeSpeed, source lines 252-260. -/
def StelNavigator.decreaseTimeSpeed (nav : StelNavigator) : StelNavigator :=
  let s := nav.timeSpeed
  let s := if s > JD_SECOND then s / 10
    else if s ≤ -JD_SECOND then s * 10
    else if s > -JD_SECOND ∧ s ≤ 0 then -JD_SECOND
    else if s > 0 ∧ s ≤ JD_SECOND then 0
    else s
  { nav with timeSpeed := s }

/-- StelNavigator::moveObserverTo, source lines 203-219: choose the
duration by whether the planet changes; positive duration starts a
transition and runs its zero-elapsed refresh once, otherwise a static
observer replaces the old one; one locationChanged notification is
emitted either way. -/
def StelNavigator.moveObserverTo (nav : StelNavigator) (target : StelLocation)
    (duration durationIfPlanetChange : ℚ) : StelNavigator × List NavEvent :=
  let d := if nav.position.getCurrentLocation.planetName = target.planetName
    then duration else durationIfPlanetChange
  let pos := if d > 0
    then (StelObserver.spaceShip nav.position.getCurrentLocation target d 0).update 0
    else .static target
  ({ nav with position := pos }, [.locationChanged target])

/-- StelNavigator::updateTime, source lines 311-337: advance the Julian
Day by rate times delta and clamp it; if the observer's lifetime is over,
clear the selection when the selected object is the outgoing observer's
home planet and swap in the next observer; run the observer update hook;
finally call SolarSystem::computePositions with the new Julian Day and
the (new) home planet's heliocentric position.  The arguments of that
ephemeris call are returned as the last component so the call stays
observable. -/
def StelNavigator.updateTime (nav : StelNavigator) (pr : String → Planet)
    (deltaTime : ℚ) (sel : SelState) :
    StelNavigator × SelState × ℚ × Vec3 :=
  let jd := clampJD (nav.JDay + nav.timeSpeed * deltaTime)
  let selPos : SelState × StelObserver :=
    if nav.position.isObserverLifeOver then
      (if sel.wasSelected ∧
          sel.selectedName = (nav.position.getHomePlanet pr).getEnglishName
        then sel.unSelect else sel,
       nav.position.getNextObserver)
    else (sel, nav.position)
  let pos := selPos.2.update deltaTime
  ({ nav with JDay := jd, position := pos }, selPos.1,
   jd, (pos.getHomePlanet pr).getHeliocentricEclipticPos)

/-- StelNavigator::getIsTimeNow, source lines 148-159, with the two
function-local statics (lastJD, previousResult) made an explicit cache
value and the system clock a parameter. -/
structure TimeNowCache where
  lastJD : ℚ
  previousResult : Bool
deriving DecidableEq

/-- One call to getIsTimeNow: recompute the cached comparison against the
true current instant only when the simulated Julian Day has moved by more
than a quarter of JD_SECOND since the last recomputation. -/
def getIsTimeNow (now jd : ℚ) (c : TimeNowCache) : Bool × TimeNowCache :=
  if |c.lastJD - jd| > JD_SECOND / 4 then
    (decide (|jd - now| < JD_SECOND), ⟨jd, decide (|jd - now| < JD_SECOND)⟩)
  else
    (c.previousResult, c)

/-- The state of the two statics on the very first call: lastJD is the
Julian Day at that call and previousResult the fresh comparison. -/
def initialTimeNowCache (now jd : ℚ) : TimeNowCache :=
  ⟨jd, decide (|jd - now| < JD_SECOND)⟩

/-- The cache is well-formed for the instant now when its stored result is
the comparison it caches, evaluated at its stored Julian Day. -/
def wellFormedCache (now : ℚ) (c : TimeNowCache) : Prop :=
  c.previousResult = decide (|c.lastJD - now| < JD_SECOND)

/-! ### The individual steps of updateTime, for the step-ordering claim -/

/-- Step 1 of updateTime: advance the Julian Day by rate times the
elapsed real seconds, then clamp (source lines 313-317). -/
def stepAdvanceClamp (deltaTime : ℚ) (nav : StelNavigator) : StelNavigator :=
  { nav with JDay := clampJD (nav.JDay + nav.timeSpeed * deltaTime) }

/-- Step 2 of updateTime: when the observer's lifetime is over, clear the
selection if it is the outgoing observer's home planet and replace the
observer with its next observer (source lines 319-331). -/
def stepSwapObserver (pr : String → Planet) (nav : StelNavigator) (sel : SelState) :
    StelNavigator × SelState :=
  if nav.position.isObserverLifeOver then
    ({ nav with position := nav.position.getNextObserver },
     if sel.wasSelected ∧
         sel.selectedName = (nav.position.getHomePlanet pr).getEnglishName
       then sel.unSelect else sel)
  else (nav, sel)

/-- Step 3 of updateTime: the observer's variant-specific update hook
(source line 332). -/
def stepObserverUpdate (deltaTime : ℚ) (nav : StelNavigator) : StelNavigator :=
  { nav with position := nav.position.update deltaTime }

/-- Step 4 of updateTime: the arguments handed to
SolarSystem::computePositions — the new Julian Day and the current home
planet's heliocentric position (source lines 335-336). -/
def stepEphemerisArgs (pr : String → Planet) (nav : StelNavigator) : ℚ × Vec3 :=
  (nav.JDay, (nav.position.getHomePlanet pr).getHeliocentricEclipticPos)

/-! ### Concrete fixtures used by witnesses and counterexamples -/

def parisLoc : StelLocation := ⟨"Earth", "Paris", "", 2.35, 48.85, 0⟩

def marsLoc : StelLocation := ⟨"Mars", "-", "", 2.35, 48.85, 0⟩

def earthPlanet : Planet := ⟨"Earth", 0.99727, fun _ => 0⟩

def ssbPlanet : Planet := ⟨"Solar System StelObserver", 25, fun _ => 0⟩

def prEarth : String → Planet := fun _ => earthPlanet

def prSSB : String → Planet := fun _ => ssbPlanet

def mats0 : TransformMats := ⟨0, 0, 0, 0, 0, 0, 0, 0⟩

def nav0 : StelNavigator :=
  ⟨0, 0, .static parisLoc, mats0, fun _ => 0, fun _ => 0, fun _ => 0⟩

def frame0 : StelObserverFrame := ⟨fun _ => 1, 1, fun _ => 0, 0⟩

def consts0 : FrameConsts := ⟨1⟩

def sel0 : SelState := ⟨false, ""⟩

/-- A navigator whose matrix bundle has been produced by
updateTransformMatrices over the identity observer frame. -/
def navRot : StelNavigator :=
  ⟨0, 0, .static parisLoc, updateTransformMatrices consts0 frame0 0,
    fun _ => 0, fun _ => 0, fun _ => 0⟩

/-- A homogeneous matrix is a pure rotation when its transpose is its
inverse and its last row is that of the identity (no projective or
translation part touching the w coordinate). -/
def pureRotation (M : Mat4) : Prop :=
  M.transpose * M = 1 ∧ ∀ j : Fin 4, M 3 j = if j = 3 then 1 else 0

/-- Squared Euclidean norm of a 3-vector. -/
def normSq (v : Vec3) : ℚ := v 0 * v 0 + v 1 * v 1 + v 2 * v 2

/-- Modelled from the spec: Vec3d normalize (math-library leaf, not under
src/) divides a vector by its Euclidean length, which is a real square
root. -/
noncomputable def vnormalize (v : Vec3) : Fin 3 → ℝ :=
  fun i => (v i : ℝ) / Real.sqrt ((normSq v : ℝ))

/-- Coordinatewise embedding of a rational 3-vector into the reals. -/
noncomputable def toR (v : Vec3) : Fin 3 → ℝ := fun i => (v i : ℝ)

/-! ### Helper lemmas -/

lemma JDayMin_lt_JDayMax : JDayMin < JDayMax := by
  rw [JDayMin, JDayMax]; norm_num

lemma clampJD_mem (x : ℚ) : JDayMin ≤ clampJD x ∧ clampJD x ≤ JDayMax := by
  have h := JDayMin_lt_JDayMax
  rw [clampJD]
  split_ifs with h1 h2 h3 <;>
    refine ⟨by linarith, by linarith⟩

lemma clampJD_of_gt {x : ℚ} (h : x > JDayMax) : clampJD x = JDayMax := by
  have hlt := JDayMin_lt_JDayMax
  rw [clampJD]
  rw [if_pos h, if_neg (not_lt.mpr (le_of_lt hlt))]

lemma clampJD_of_lt {x : ℚ} (h : x < JDayMin) : clampJD x = JDayMin := by
  have hlt := JDayMin_lt_JDayMax
  rw [clampJD]
  rw [if_neg (not_lt.mpr (le_of_lt (lt_trans h hlt))), if_pos h]

lemma clampJD_of_mem {x : ℚ} (h1 : JDayMin ≤ x) (h2 : x ≤ JDayMax) :
    clampJD x = x := by
  rw [clampJD]
  rw [if_neg (not_lt.mpr h2), if_neg (not_lt.mpr h1)]

/-! ### Claim theorems -/

/-- C2: one call to updateTransformMatrices produces, deterministically
from the current Julian Day and observer data alone, exactly the matrix
compositions prescribed by the section 4.4 algorithm of the spec:
altAzToEquOfDate from the observer, its transpose, equOfDateToJ2000 as
VSOP87ToJ2000 times the observer's equatorial-to-ecliptic rotation, its
transpose, J2000ToAltAz as equOfDateToAltAz times J2000ToEquOfDate,
helioEclipticToEquOfDate as J2000ToEquOfDate times VSOP87ToJ2000 times
the translation by minus the center position, and the two
alt-az/heliocentric matrices built from tmp with the stated
translations. -/
theorem updateTransformMatrices_eq_spec (c : FrameConsts)
    (f : StelObserverFrame) (jd : ℚ) :
    updateTransformMatrices c f jd = specSection44Matrices c f jd := rfl

/-- C3: after every call to updateTransformMatrices, for every Julian Day,
matEquinoxEquToAltAz is exactly the transpose of matAltAzToEquinoxEqu and
matJ2000ToEquinoxEqu exactly the transpose of matEquinoxEquToJ2000 — each
obtained by construction as a transpose (the equalities hold by
definitional unfolding, not by a numeric argument). -/
theorem transformMatrices_transpose_pairs (c : FrameConsts)
    (f : StelObserverFrame) (jd : ℚ) :
    (updateTransformMatrices c f jd).matEquinoxEquToAltAz =
      (updateTransformMatrices c f jd).matAltAzToEquinoxEqu.transpose ∧
    (updateTransformMatrices c f jd).matJ2000ToEquinoxEqu =
      (updateTransformMatrices c f jd).matEquinoxEquToJ2000.transpose :=
  ⟨rfl, rfl⟩

/-- C10: each vision-direction setter stores its argument exactly as
passed, with no normalization, and derives the other two representations
as exact images under the current transform matrices: the alt-az setter
leaves the alt-az field equal to the input and sets the
equatorial-of-date field to matAltAzToEquinoxEqu applied to it and the
J2000 field to matEquinoxEquToJ2000 applied to that; the other two
setters behave likewise in their own frames. -/
theorem visionDirection_setters_store_exact (nav : StelNavigator) (v : Vec3) :
    ((nav.setAltAzVisionDirection v).altAzVisionDirection = v ∧
     (nav.setAltAzVisionDirection v).earthEquVisionDirection =
       mul4v nav.mats.matAltAzToEquinoxEqu v ∧
     (nav.setAltAzVisionDirection v).J2000EquVisionDirection =
       mul4v nav.mats.matEquinoxEquToJ2000 (mul4v nav.mats.matAltAzToEquinoxEqu v)) ∧
    ((nav.setEquinoxEquVisionDirection v).earthEquVisionDirection = v ∧
     (nav.setEquinoxEquVisionDirection v).J2000EquVisionDirection =
       mul4v nav.mats.matEquinoxEquToJ2000 v ∧
     (nav.setEquinoxEquVisionDirection v).altAzVisionDirection =
       mul4v nav.mats.matEquinoxEquToAltAz v) ∧
    ((nav.setJ2000EquVisionDirection v).J2000EquVisionDirection = v ∧
     (nav.setJ2000EquVisionDirection v).earthEquVisionDirection =
       mul4v nav.mats.matJ2000ToEquinoxEqu v ∧
     (nav.setJ2000EquVisionDirection v).altAzVisionDirection =
       mul4v nav.mats.matEquinoxEquToAltAz (mul4v nav.mats.matJ2000ToEquinoxEqu v)) :=
  ⟨⟨rfl, rfl, rfl⟩, ⟨rfl, rfl, rfl⟩, ⟨rfl, rfl, rfl⟩⟩

lemma increaseTimeSpeed_timeSpeed (nav : StelNavigator) :
    nav.increaseTimeSpeed.timeSpeed =
      if nav.timeSpeed ≥ JD_SECOND then nav.timeSpeed * 10
      else if nav.timeSpeed < -JD_SECOND then nav.timeSpeed / 10
      else if nav.timeSpeed ≥ 0 ∧ nav.timeSpeed < JD_SECOND then JD_SECOND
      else if nav.timeSpeed ≥ -JD_SECOND ∧ nav.timeSpeed < 0 then 0
      else nav.timeSpeed := rfl

lemma decreaseTimeSpeed_timeSpeed (nav : StelNavigator) :
    nav.decreaseTimeSpeed.timeSpeed =
      if nav.timeSpeed > JD_SECOND then nav.timeSpeed / 10
      else if nav.timeSpeed ≤ -JD_SECOND then nav.timeSpeed * 10
      else if nav.timeSpeed > -JD_SECOND ∧ nav.timeSpeed ≤ 0 then -JD_SECOND
      else if nav.timeSpeed > 0 ∧ nav.timeSpeed ≤ JD_SECOND then 0
      else nav.timeSpeed := rfl

/-- C5: from rate 0 one increaseTimeSpeed yields JD_SECOND and a second
yields 10 times JD_SECOND; symmetrically, from 0 one decreaseTimeSpeed
yields minus JD_SECOND and a second yields minus 10 times JD_SECOND; and
for every rate, increaseTimeSpeed follows the sign-crossing policy: scale
up by 10 at or above JD_SECOND, divide by 10 below minus JD_SECOND, snap
the interval from 0 up to JD_SECOND to JD_SECOND, and snap the interval
from minus JD_SECOND up to 0 to 0. -/
theorem timeSpeed_stepping_policy (nav : StelNavigator) :
    (nav.timeSpeed = 0 →
      nav.increaseTimeSpeed.timeSpeed = JD_SECOND ∧
      nav.increaseTimeSpeed.increaseTimeSpeed.timeSpeed = 10 * JD_SECOND ∧
      nav.decreaseTimeSpeed.timeSpeed = -JD_SECOND ∧
      nav.decreaseTimeSpeed.decreaseTimeSpeed.timeSpeed = -(10 * JD_SECOND)) ∧
    (JD_SECOND ≤ nav.timeSpeed →
      nav.increaseTimeSpeed.timeSpeed = 10 * nav.timeSpeed) ∧
    (nav.timeSpeed < -JD_SECOND →
      nav.increaseTimeSpeed.timeSpeed = nav.timeSpeed / 10) ∧
    (0 ≤ nav.timeSpeed → nav.timeSpeed < JD_SECOND →
      nav.increaseTimeSpeed.timeSpeed = JD_SECOND) ∧
    (-JD_SECOND ≤ nav.timeSpeed → nav.timeSpeed < 0 →
      nav.increaseTimeSpeed.timeSpeed = 0) := by
  have hJ : (0 : ℚ) < JD_SECOND := by rw [JD_SECOND]; norm_num
  refine ⟨?_, ?_, ?_, ?_, ?_⟩
  · intro h
    have e1 : nav.increaseTimeSpeed.timeSpeed = JD_SECOND := by
      rw [increaseTimeSpeed_timeSpeed, h]
      rw [if_neg (not_le.mpr hJ), if_neg (not_lt.mpr (by linarith)),
        if_pos ⟨le_refl 0, hJ⟩]
    have e2 : nav.increaseTimeSpeed.increaseTimeSpeed.timeSpeed = 10 * JD_SECOND := by
      rw [increaseTimeSpeed_timeSpeed nav.increaseTimeSpeed, e1,
        if_pos (le_refl JD_SECOND)]
      ring
    have e3 : nav.decreaseTimeSpeed.timeSpeed = -JD_SECOND := by
      rw [decreaseTimeSpeed_timeSpeed, h]
      rw [if_neg (not_lt.mpr (le_of_lt hJ)), if_neg (not_le.mpr (by linarith)),
        if_pos ⟨by linarith, le_refl 0⟩]
    have e4 : nav.decreaseTimeSpeed.decreaseTimeSpeed.timeSpeed = -(10 * JD_SECOND) := by
      rw [decreaseTimeSpeed_timeSpeed nav.decreaseTimeSpeed, e3]
      rw [if_neg (not_lt.mpr (by linarith)), if_pos (le_refl (-JD_SECOND))]
      ring
    exact ⟨e1, e2, e3, e4⟩
  · intro h
    rw [increaseTimeSpeed_timeSpeed, if_pos h]; ring
  · intro h
    rw [increaseTimeSpeed_timeSpeed, if_neg (not_le.mpr (by linarith)), if_pos h]
  · intro h0 h1
    rw [increaseTimeSpeed_timeSpeed, if_neg (not_le.mpr h1),
      if_neg (not_lt.mpr (by linarith)), if_pos ⟨h0, h1⟩]
  · intro h0 h1
    rw [increaseTimeSpeed_timeSpeed, if_neg (not_le.mpr (by linarith)),
      if_neg (not_lt.mpr h0),
      if_neg (fun hc => absurd h1 (not_lt.mpr hc.1)), if_pos ⟨h0, h1⟩]

/-- C5 witness: the stepping facts at the concrete paused navigator. -/
theorem timeSpeed_stepping_policy_witness :
    nav0.increaseTimeSpeed.timeSpeed = JD_SECOND ∧
    nav0.increaseTimeSpeed.increaseTimeSpeed.timeSpeed = 10 * JD_SECOND ∧
    nav0.decreaseTimeSpeed.timeSpeed = -JD_SECOND ∧
    nav0.decreaseTimeSpeed.decreaseTimeSpeed.timeSpeed = -(10 * JD_SECOND) :=
  (timeSpeed_stepping_policy nav0).1 rfl

/-- C6: for every starting Julian Day (in range or not), every rate and
every elapsed delta, updateTime leaves the Julian Day inside the
supported range; a pre-clamp value above the upper bound is set to
exactly JDayMax and one below the lower bound to exactly JDayMin (the
clamp is a plain assignment, no error channel exists in the
operation). -/
theorem updateTime_JDay_clamped (nav : StelNavigator) (pr : String → Planet)
    (deltaTime : ℚ) (sel : SelState) :
    (JDayMin ≤ (nav.updateTime pr deltaTime sel).1.JDay ∧
      (nav.updateTime pr deltaTime sel).1.JDay ≤ JDayMax) ∧
    (nav.JDay + nav.timeSpeed * deltaTime > JDayMax →
      (nav.updateTime pr deltaTime sel).1.JDay = JDayMax) ∧
    (nav.JDay + nav.timeSpeed * deltaTime < JDayMin →
      (nav.updateTime pr deltaTime sel).1.JDay = JDayMin) := by
  have hJD : (nav.updateTime pr deltaTime sel).1.JDay =
      clampJD (nav.JDay + nav.timeSpeed * deltaTime) := rfl
  refine ⟨?_, ?_, ?_⟩
  · rw [hJD]; exact clampJD_mem _
  · intro h; rw [hJD]; exact clampJD_of_gt h
  · intro h; rw [hJD]; exact clampJD_of_lt h

/-- C6 witness: starting from Julian Day one billion (respectively minus
one billion) with the rate at zero, updateTime clamps to exactly the
documented bounds. -/
theorem updateTime_JDay_clamped_witness :
    (({ nav0 with JDay := 1000000000 }).updateTime prEarth 0 sel0).1.JDay = JDayMax ∧
    (({ nav0 with JDay := -1000000000 }).updateTime prEarth 0 sel0).1.JDay = JDayMin :=
  ⟨(updateTime_JDay_clamped { nav0 with JDay := 1000000000 } prEarth 0 sel0).2.1
      (by rw [JDayMax]; norm_num),
   (updateTime_JDay_clamped { nav0 with JDay := -1000000000 } prEarth 0 sel0).2.2
      (by rw [JDayMin]; norm_num)⟩

/-- C7: addSiderealDays advances the Julian Day by the argument times the
home body's sidereal-day length when the home body is a genuine planetary
body (its name differs from the solar-system-observer pseudo-body's), and
by the argument untouched when the home body is that pseudo-body, as long
as the resulting day stays in the supported range of the (spec-modelled,
clamping) setJDay. -/
theorem addSiderealDays_scaling (nav : StelNavigator) (pr : String → Planet)
    (d : ℚ) :
    ((nav.position.getHomePlanet pr).getEnglishName ≠ "Solar System StelObserver" →
      JDayMin ≤ nav.JDay + d * (nav.position.getHomePlanet pr).getSiderealDay →
      nav.JDay + d * (nav.position.getHomePlanet pr).getSiderealDay ≤ JDayMax →
      (nav.addSiderealDays pr d).JDay =
        nav.JDay + d * (nav.position.getHomePlanet pr).getSiderealDay) ∧
    ((nav.position.getHomePlanet pr).getEnglishName = "Solar System StelObserver" →
      JDayMin ≤ nav.JDay + d → nav.JDay + d ≤ JDayMax →
      (nav.addSiderealDays pr d).JDay = nav.JDay + d) := by
  constructor
  · intro hname h1 h2
    simp only [StelNavigator.addSiderealDays, StelNavigator.setJDay, if_pos hname]
    exact clampJD_of_mem h1 h2
  · intro hname h1 h2
    have : ¬ (nav.position.getHomePlanet pr).getEnglishName ≠
        "Solar System StelObserver" := by simp [hname]
    simp only [StelNavigator.addSiderealDays, StelNavigator.setJDay, if_neg this]
    exact clampJD_of_mem h1 h2

/-- C7 witness: one sidereal day on a body whose sidereal-day length is
0.99727 advances the Julian Day by exactly 0.99727, and on the
solar-system-observer pseudo-body by exactly 1. -/
theorem addSiderealDays_scaling_witness :
    (nav0.addSiderealDays prEarth 1).JDay = 0 + 1 * (0.99727 : ℚ) ∧
    (nav0.addSiderealDays prSSB 1).JDay = 0 + 1 :=
  ⟨(addSiderealDays_scaling nav0 prEarth 1).1 (by decide)
      (by simp only [nav0, prEarth, earthPlanet, parisLoc,
            StelObserver.getHomePlanet, StelObserver.getCurrentLocation]
          norm_num [JDayMin])
      (by simp only [nav0, prEarth, earthPlanet, parisLoc,
            StelObserver.getHomePlanet, StelObserver.getCurrentLocation]
          norm_num [JDayMax]),
   (addSiderealDays_scaling nav0 prSSB 1).2 (by decide)
      (by simp only [nav0, prSSB, ssbPlanet, parisLoc,
            StelObserver.getHomePlanet, StelObserver.getCurrentLocation]
          norm_num [JDayMin])
      (by simp only [nav0, prSSB, ssbPlanet, parisLoc,
            StelObserver.getHomePlanet, StelObserver.getCurrentLocation]
          norm_num [JDayMax])⟩

lemma homog_mul4v (M : Mat4)
    (hrow : ∀ j : Fin 4, M 3 j = if j = 3 then 1 else 0) (v : Vec3) :
    homog (mul4v M v) = M.mulVec (homog v) := by
  funext i
  fin_cases i
  · rfl
  · rfl
  · rfl
  · show (1 : ℚ) = M.mulVec (homog v) 3
    have hm : M.mulVec (homog v) 3 = ∑ j : Fin 4, M 3 j * homog v j := rfl
    have h0 : M 3 0 = 0 := by rw [hrow 0]; rfl
    have h1 : M 3 1 = 0 := by rw [hrow 1]; rfl
    have h2 : M 3 2 = 0 := by rw [hrow 2]; rfl
    have h3 : M 3 3 = 1 := by rw [hrow 3]; rfl
    have h4 : homog v 3 = 1 := rfl
    rw [hm, Fin.sum_univ_four, h0, h1, h2, h3, h4]
    ring

lemma mul4v_one (v : Vec3) : mul4v 1 v = v := by
  funext i
  show (1 : Mat4).mulVec (homog v) i.castSucc = v i
  rw [Matrix.one_mulVec]
  fin_cases i <;> rfl

lemma mul4v_transpose_roundtrip (M : Mat4) (h : pureRotation M) (v : Vec3) :
    mul4v M.transpose (mul4v M v) = v := by
  obtain ⟨horth, hrow⟩ := h
  have hh : homog (mul4v M v) = M.mulVec (homog v) := homog_mul4v M hrow v
  have hcomp : M.transpose.mulVec (M.mulVec (homog v)) = homog v := by
    rw [Matrix.mulVec_mulVec, horth, Matrix.one_mulVec]
  funext i
  show M.transpose.mulVec (homog (mul4v M v)) i.castSucc = v i
  rw [hh, hcomp]
  fin_cases i <;> rfl

/-- C1 (amended): updateTime performs, in this order, (1) the Julian-Day
advance by rate times delta followed by the clamp, (2) the observer swap
— clearing the external selection when it equals the outgoing observer's
home body — when the observer's lifetime is over, (3) the observer's
update hook, and then (4) the ephemeris recompute whose arguments are the
new Julian Day and the new (post-swap) home body's heliocentric position;
it does not recompute the transform matrices, which are left exactly as
they were (that recomputation is the separate operation
updateTransformMatrices, invoked by the host).  The observer swap does
happen before the ephemeris recompute. -/
theorem updateTime_step_order (nav : StelNavigator) (pr : String → Planet)
    (deltaTime : ℚ) (sel : SelState) :
    nav.updateTime pr deltaTime sel =
      (stepObserverUpdate deltaTime
          (stepSwapObserver pr (stepAdvanceClamp deltaTime nav) sel).1,
        (stepSwapObserver pr (stepAdvanceClamp deltaTime nav) sel).2,
        stepEphemerisArgs pr
          (stepObserverUpdate deltaTime
            (stepSwapObserver pr (stepAdvanceClamp deltaTime nav) sel).1)) ∧
    (nav.updateTime pr deltaTime sel).1.mats = nav.mats := by
  constructor
  · simp only [StelNavigator.updateTime, stepAdvanceClamp, stepSwapObserver,
      stepObserverUpdate, stepEphemerisArgs]
    by_cases h : nav.position.isObserverLifeOver = true
    · simp [h]
    · simp [h]
  · rfl

/-- C1 counterexample: at a concrete navigator whose stored
matAltAzToEquinoxEqu is the zero matrix while the observer frame's alt-az
rotation is the identity, updateTime leaves the stored matrix at zero,
whereas the recomputation prescribed by the claim's step (4) would
produce the identity — so updateTime does not recompute the transform
matrices. -/
theorem updateTime_no_matrix_recompute_cex :
    (nav0.updateTime prEarth 1 sel0).1.mats.matAltAzToEquinoxEqu = 0 ∧
    (updateTransformMatrices consts0 frame0
        (nav0.updateTime prEarth 1 sel0).1.JDay).matAltAzToEquinoxEqu = 1 ∧
    (0 : Mat4) ≠ 1 := by
  refine ⟨rfl, rfl, fun h => ?_⟩
  have h0 := congrFun (congrFun h 0) 0
  simp [Matrix.one_apply] at h0

/-- C4 (amended): after updateTransformMatrices with a pure-rotation
alt-az frame, setting the alt-az vision direction to v, reading back the
equatorial-of-date representation and converting it to alt-az with the
current matrices reproduces v itself, exactly; since the stored vector is
never normalized, this coincides with normalize(v) exactly when v is
already a unit vector (and only then, for nonzero v). -/
theorem setAltAzVisionDirection_roundtrip (c : FrameConsts)
    (f : StelObserverFrame) (jd : ℚ) (nav : StelNavigator) (v : Vec3)
    (hmats : nav.mats = updateTransformMatrices c f jd)
    (hrot : pureRotation (f.getRotAltAzToEquatorial jd)) :
    (nav.setAltAzVisionDirection v).equinoxEquToAltAz
        (nav.setAltAzVisionDirection v).earthEquVisionDirection = v ∧
    (normSq v = 1 → vnormalize v = toR v) := by
  constructor
  · show mul4v (nav.setAltAzVisionDirection v).mats.matEquinoxEquToAltAz
        (mul4v nav.mats.matAltAzToEquinoxEqu v) = v
    have hm : (nav.setAltAzVisionDirection v).mats = nav.mats := rfl
    rw [hm, hmats]
    exact mul4v_transpose_roundtrip _ hrot v
  · intro h
    funext i
    have hcast : ((normSq v : ℚ) : ℝ) = 1 := by exact_mod_cast h
    simp [vnormalize, toR, hcast, Real.sqrt_one]

/-- C4 witness: at the identity frame and the unit vector with first
coordinate 1, the round trip reproduces the vector and the normalization
clause holds. -/
theorem setAltAzVisionDirection_roundtrip_witness :
    (navRot.mats = updateTransformMatrices consts0 frame0 0 ∧
      pureRotation (frame0.getRotAltAzToEquatorial 0)) ∧
    ((navRot.setAltAzVisionDirection ![1, 0, 0]).equinoxEquToAltAz
        (navRot.setAltAzVisionDirection ![1, 0, 0]).earthEquVisionDirection =
      ![1, 0, 0] ∧
    (normSq ![1, 0, 0] = 1 → vnormalize ![1, 0, 0] = toR ![1, 0, 0])) := by
  have hrot : pureRotation (frame0.getRotAltAzToEquatorial 0) := by
    constructor
    · show (1 : Mat4).transpose * 1 = 1
      rw [Matrix.transpose_one, mul_one]
    · intro j
      show (1 : Mat4) 3 j = _
      simp [Matrix.one_apply, eq_comm]
  exact ⟨⟨rfl, hrot⟩,
    setAltAzVisionDirection_roundtrip consts0 frame0 0 navRot ![1, 0, 0] rfl hrot⟩

/-- C4 counterexample: with the identity (pure-rotation) frame matrices,
setting the alt-az vision direction to the length-two vector (2,0,0) and
reading it back through the equatorial-of-date frame returns (2,0,0), not
normalize (2,0,0) = (1,0,0): the claim that the round trip reproduces the
normalized vector fails for non-unit input. -/
theorem setAltAzVisionDirection_normalize_cex :
    pureRotation (frame0.getRotAltAzToEquatorial 0) ∧
    navRot.mats = updateTransformMatrices consts0 frame0 0 ∧
    toR ((navRot.setAltAzVisionDirection ![2, 0, 0]).equinoxEquToAltAz
        (navRot.setAltAzVisionDirection ![2, 0, 0]).earthEquVisionDirection) ≠
      vnormalize ![2, 0, 0] := by
  refine ⟨?_, rfl, ?_⟩
  · constructor
    · show (1 : Mat4).transpose * 1 = 1
      rw [Matrix.transpose_one, mul_one]
    · intro j
      show (1 : Mat4) 3 j = _
      simp [Matrix.one_apply, eq_comm]
  · intro h
    have hrt : (navRot.setAltAzVisionDirection ![2, 0, 0]).equinoxEquToAltAz
        (navRot.setAltAzVisionDirection ![2, 0, 0]).earthEquVisionDirection =
        ![2, 0, 0] := by
      show mul4v (1 : Mat4).transpose (mul4v 1 ![2, 0, 0]) = ![2, 0, 0]
      rw [Matrix.transpose_one, mul4v_one, mul4v_one]
    rw [hrt] at h
    have h0 := congrFun h 0
    have hns : normSq ![2, 0, 0] = 4 := by norm_num [normSq]
    simp only [toR, vnormalize, hns, Matrix.cons_val_zero] at h0
    have h4 : ((4 : ℚ) : ℝ) = 4 := by norm_num
    rw [h4] at h0
    have hs : Real.sqrt 4 = 2 := by
      rw [show (4 : ℝ) = 2 ^ 2 by norm_num]
      exact Real.sqrt_sq (by norm_num)
    rw [hs] at h0
    norm_num at h0

/-- C8: moveObserverTo selects duration when the target's planet equals
the current one and durationIfPlanetChange otherwise; a strictly positive
chosen duration replaces the observer with a transitioning observer whose
zero-elapsed refresh has been run once, while a non-positive one
synchronously installs a static observer at the target — after which the
current location is the target and no transition object exists — and in
both cases exactly one locationChanged notification is emitted. -/
theorem moveObserverTo_behavior (nav : StelNavigator) (target : StelLocation)
    (duration durationIfPlanetChange : ℚ) :
    ((nav.moveObserverTo target duration durationIfPlanetChange).2 =
      [NavEvent.locationChanged target]) ∧
    ((if nav.position.getCurrentLocation.planetName = target.planetName
        then duration else durationIfPlanetChange) > 0 →
      (nav.moveObserverTo target duration durationIfPlanetChange).1.position =
        (StelObserver.spaceShip nav.position.getCurrentLocation target
          (if nav.position.getCurrentLocation.planetName = target.planetName
            then duration else durationIfPlanetChange) 0).update 0) ∧
    ((if nav.position.getCurrentLocation.planetName = target.planetName
        then duration else durationIfPlanetChange) ≤ 0 →
      (nav.moveObserverTo target duration durationIfPlanetChange).1.position =
        .static target ∧
      (nav.moveObserverTo target duration
        durationIfPlanetChange).1.position.getCurrentLocation = target ∧
      ∀ s e du el,
        (nav.moveObserverTo target duration durationIfPlanetChange).1.position ≠
          .spaceShip s e du el) := by
  have hpos : (nav.moveObserverTo target duration durationIfPlanetChange).1.position =
      (if (if nav.position.getCurrentLocation.planetName = target.planetName
            then duration else durationIfPlanetChange) > 0
        then (StelObserver.spaceShip nav.position.getCurrentLocation target
          (if nav.position.getCurrentLocation.planetName = target.planetName
            then duration else durationIfPlanetChange) 0).update 0
        else .static target) := rfl
  refine ⟨rfl, ?_, ?_⟩
  · intro h
    rw [hpos, if_pos h]
  · intro h
    have h2 : (nav.moveObserverTo target duration
        durationIfPlanetChange).1.position = .static target := by
      rw [hpos, if_neg (not_lt.mpr h)]
    refine ⟨h2, ?_, ?_⟩
    · rw [h2]
      rfl
    · intro s e du el hc
      rw [h2] at hc
      exact StelObserver.noConfusion hc

/-- C8 witness: moving from Paris on Earth to a Mars location with
zero duration-if-planet-change installs a static observer at the target
synchronously and emits one notification; with a positive
duration-if-planet-change a transitioning observer is installed with its
zero-elapsed refresh applied. -/
theorem moveObserverTo_behavior_witness :
    ((nav0.moveObserverTo marsLoc 1 0).2 = [NavEvent.locationChanged marsLoc] ∧
      (nav0.moveObserverTo marsLoc 1 0).1.position = .static marsLoc ∧
      (nav0.moveObserverTo marsLoc 1 0).1.position.getCurrentLocation = marsLoc) ∧
    (nav0.moveObserverTo marsLoc 1 3).1.position =
      (StelObserver.spaceShip nav0.position.getCurrentLocation marsLoc
        (if nav0.position.getCurrentLocation.planetName = marsLoc.planetName
          then 1 else 3) 0).update 0 :=
  ⟨⟨(moveObserverTo_behavior nav0 marsLoc 1 0).1,
    ((moveObserverTo_behavior nav0 marsLoc 1 0).2.2 (by decide)).1,
    ((moveObserverTo_behavior nav0 marsLoc 1 0).2.2 (by decide)).2.1⟩,
   (moveObserverTo_behavior nav0 marsLoc 1 3).2.1 (by decide)⟩

/-- C9 (amended): getIsTimeNow returns the cached comparison, recomputing
it — as whether the simulated Julian Day is within one JD_SECOND of the
true current instant — exactly when the simulated day has moved by more
than a quarter of JD_SECOND since the last recomputation; it returns true
when queried at the true current instant (as right after setTimeNow) from
any well-formed cache, and it returns false when the simulated day is at
least one JD_SECOND away from true now provided the move since the last
recomputation exceeds the quarter-JD_SECOND threshold (without that
proviso a stale cached value may still be returned). -/
theorem getIsTimeNow_cache_policy (now jd : ℚ) (c : TimeNowCache) :
    (|c.lastJD - jd| > JD_SECOND / 4 →
      getIsTimeNow now jd c =
        (decide (|jd - now| < JD_SECOND), ⟨jd, decide (|jd - now| < JD_SECOND)⟩)) ∧
    (|c.lastJD - jd| ≤ JD_SECOND / 4 →
      getIsTimeNow now jd c = (c.previousResult, c)) ∧
    (wellFormedCache now c → (getIsTimeNow now now c).1 = true) ∧
    (¬ |jd - now| < JD_SECOND → |c.lastJD - jd| > JD_SECOND / 4 →
      (getIsTimeNow now jd c).1 = false) := by
  have hJ : (0 : ℚ) < JD_SECOND := by rw [JD_SECOND]; norm_num
  refine ⟨?_, ?_, ?_, ?_⟩
  · intro h
    rw [getIsTimeNow, if_pos h]
  · intro h
    rw [getIsTimeNow, if_neg (not_lt.mpr h)]
  · intro hwf
    rw [getIsTimeNow]
    split_ifs with h
    · show decide (|now - now| < JD_SECOND) = true
      rw [decide_eq_true_iff, sub_self, abs_zero]
      exact hJ
    · show c.previousResult = true
      have hle : |c.lastJD - now| ≤ JD_SECOND / 4 := not_lt.mp h
      rw [hwf, decide_eq_true_iff]
      linarith
  · intro hfar h
    rw [getIsTimeNow, if_pos h]
    exact decide_eq_false hfar

/-- C9 witness: from the initial cache at the true instant, querying at
the true instant returns true, and querying one whole day away (a move
past the recompute threshold) returns false. -/
theorem getIsTimeNow_cache_policy_witness :
    (getIsTimeNow 0 0 (initialTimeNowCache 0 0)).1 = true ∧
    (getIsTimeNow 0 1 (initialTimeNowCache 0 0)).1 = false :=
  ⟨(getIsTimeNow_cache_policy 0 0 (initialTimeNowCache 0 0)).2.2.1 rfl,
   (getIsTimeNow_cache_policy 0 1 (initialTimeNowCache 0 0)).2.2.2
      (by rw [sub_zero, abs_one, JD_SECOND]; norm_num)
      (by show |(0 : ℚ) - 1| > JD_SECOND / 4
          rw [zero_sub, abs_neg, abs_one, JD_SECOND]; norm_num)⟩

/-- C9 counterexample: start the cache at the true instant 0, query at
nine tenths of a JD_SECOND (a recomputation, caching true), then advance
the simulated day to eleven tenths of a JD_SECOND — more than one
JD_SECOND away from true now — and query again: the move since the last
recomputation is only a fifth of a JD_SECOND, under the quarter
threshold, so the stale cached true is returned, contradicting the
claim's scenario that the predicate is then false. -/
theorem getIsTimeNow_stale_cache_cex :
    (getIsTimeNow 0 (11 / 10 * JD_SECOND)
        (getIsTimeNow 0 (9 / 10 * JD_SECOND) (initialTimeNowCache 0 0)).2).1 =
      true ∧
    ¬ |11 / 10 * JD_SECOND - 0| < JD_SECOND := by
  have hJpos : (0 : ℚ) ≤ 9 / 10 * JD_SECOND := by rw [JD_SECOND]; norm_num
  have hdec : decide (|9 / 10 * JD_SECOND - 0| < JD_SECOND) = true := by
    rw [decide_eq_true_iff, sub_zero, abs_of_nonneg hJpos, JD_SECOND]
    norm_num
  have h1 : |(initialTimeNowCache 0 0).lastJD - 9 / 10 * JD_SECOND| >
      JD_SECOND / 4 := by
    show |(0 : ℚ) - 9 / 10 * JD_SECOND| > JD_SECOND / 4
    rw [zero_sub, abs_neg, abs_of_nonneg hJpos, JD_SECOND]
    norm_num
  have c1 : (getIsTimeNow 0 (9 / 10 * JD_SECOND) (initialTimeNowCache 0 0)).2 =
      ⟨9 / 10 * JD_SECOND, true⟩ := by
    rw [getIsTimeNow, if_pos h1]
    show (⟨9 / 10 * JD_SECOND, decide (|9 / 10 * JD_SECOND - 0| < JD_SECOND)⟩ :
      TimeNowCache) = ⟨9 / 10 * JD_SECOND, true⟩
    rw [hdec]
  constructor
  · rw [c1, getIsTimeNow, if_neg ?hle]
    case hle =>
      show ¬ |(9 : ℚ) / 10 * JD_SECOND - 11 / 10 * JD_SECOND| > JD_SECOND / 4
      rw [not_lt]
      have hd : (9 : ℚ) / 10 * JD_SECOND - 11 / 10 * JD_SECOND =
          -(1 / 5 * JD_SECOND) := by ring
      rw [hd, abs_neg, abs_of_nonneg (by rw [JD_SECOND]; norm_num), JD_SECOND]
      norm_num
  · rw [not_lt, sub_zero,
      abs_of_nonneg (by rw [JD_SECOND]; norm_num : (0 : ℚ) ≤ 11 / 10 * JD_SECOND),
      JD_SECOND]
    norm_num

end StelNavigatorSpec
